import Mathlib

/-!
Verification of the skjaiferator operator core.

The controller source is `internal/controller/svartskjaif_controller.go`:
`Reconcile` fetches a Hub-shape (v1beta1) `SvartSkjaif` object, ignores a
NotFound fetch error, propagates any other fetch error, and then sets each of
the three spec fields `Kaffe`, `Kopp`, `Vann` to its canonical value
("svart", "mummi", "varmt") in the in-memory object whenever the field
differs.  The source issues no client write and always returns an empty
`ctrl.Result`.

The schema-conversion code (the v1alpha1 Spoke type, `toHub`/`toSpoke`, and
the conversion gateway) is not part of the sources here; it is modelled from
the spec, as marked on each such definition.
-/

namespace Skjaiferator

/-- Namespaced identity of an object, as in `req.NamespacedName`. -/
structure NamespacedName where
  ns : String
  name : String
  deriving DecidableEq, Repr

/-- Hub (v1beta1) spec: the three string fields flattened directly onto the
spec, exactly as `Reconcile` accesses them (`spec.Kaffe`, `spec.Kopp`,
`spec.Vann`). -/
structure SvartSkjaifSpec where
  Kaffe : String
  Kopp : String
  Vann : String
  deriving DecidableEq, Repr

/-- Status payload; empty in the source ("empty in the source, but reserved"). -/
structure SvartSkjaifStatus where
  deriving DecidableEq, Repr

/-- Hub (v1beta1) `SvartSkjaif` object: identity, generation counter, spec and
status. -/
structure SvartSkjaif where
  identity : NamespacedName
  generation : Nat
  spec : SvartSkjaifSpec
  status : SvartSkjaifStatus
  deriving DecidableEq, Repr

/-- Result of the `r.Get` fetch: the object, a NotFound error (object absent),
or some other store error carrying a message. -/
inductive GetResult where
  | ok (obj : SvartSkjaif)
  | notFound
  | otherError (msg : String)
  deriving DecidableEq, Repr

/-- `ctrl.Result`: requeue request returned to the external scheduler. -/
structure CtrlResult where
  requeue : Bool
  requeueAfter : Nat
  deriving DecidableEq, Repr

/-- The zero value `ctrl.Result{}`: no requeue, no delay. -/
def emptyResult : CtrlResult := { requeue := false, requeueAfter := 0 }

/-- Names of the three spec fields the reconciler may assign. -/
inductive FieldId where
  | kaffe
  | kopp
  | vann
  deriving DecidableEq, Repr

/-- Observable outcome of one `Reconcile` invocation: the `(ctrl.Result, error)`
pair returned to the scheduler, the list of writes issued through the client
(in invocation order), the spec fields assigned in memory, and the in-memory
object when the invocation returns (none when nothing was fetched). -/
structure ReconcileOutcome where
  result : CtrlResult
  error : Option String
  writes : List SvartSkjaif
  assigned : List FieldId
  finalObj : Option SvartSkjaif
  deriving DecidableEq, Repr

/-- `Reconcile` from `internal/controller/svartskjaif_controller.go`, as a
function of the fetch outcome.  On a fetch error the source returns
`ctrl.Result{}, client.IgnoreNotFound(err)`: nil for NotFound, the error
unchanged otherwise.  On success it sets each spec field to its canonical
value when the field differs, logs, and returns `ctrl.Result{}, nil`.  No
client write (`Update`/`Patch`) appears anywhere in the source, so `writes`
is always empty. -/
def Reconcile (fetched : GetResult) : ReconcileOutcome :=
  match fetched with
  | .notFound =>
    { result := emptyResult, error := none, writes := [], assigned := [],
      finalObj := none }
  | .otherError m =>
    { result := emptyResult, error := some m, writes := [], assigned := [],
      finalObj := none }
  | .ok obj =>
    let s0 := obj.spec
    let s1 := if s0.Kaffe ≠ "svart" then { s0 with Kaffe := "svart" } else s0
    let a1 : List FieldId := if s0.Kaffe ≠ "svart" then [FieldId.kaffe] else []
    let s2 := if s1.Kopp ≠ "mummi" then { s1 with Kopp := "mummi" } else s1
    let a2 : List FieldId := if s1.Kopp ≠ "mummi" then [FieldId.kopp] else []
    let s3 := if s2.Vann ≠ "varmt" then { s2 with Vann := "varmt" } else s2
    let a3 : List FieldId := if s2.Vann ≠ "varmt" then [FieldId.vann] else []
    { result := emptyResult, error := none, writes := [],
      assigned := a1 ++ a2 ++ a3, finalObj := some { obj with spec := s3 } }

/-- The stored object after one invocation on a stored object, together with
the number of writes the invocation issued: the last write is what the store
holds afterwards, and with no writes the store is unchanged. -/
def reconcileStore (obj : SvartSkjaif) : SvartSkjaif × Nat :=
  let out := Reconcile (.ok obj)
  (out.writes.getLast?.getD obj, out.writes.length)

/-- Modelled from the spec: the Spoke (v1alpha1) shape nests the three string
fields one level inside a named sub-structure; the v1alpha1 API type is not
among the sources here. -/
structure SpokeContainer where
  kaffe : String
  kopp : String
  vann : String
  deriving DecidableEq, Repr

/-- Modelled from the spec: the Spoke spec wraps the container sub-structure. -/
structure SpokeSpec where
  container : SpokeContainer
  deriving DecidableEq, Repr

/-- Modelled from the spec: a Spoke-shape object, with the same identity
metadata and status as the Hub shape. -/
structure SpokeObject where
  identity : NamespacedName
  generation : Nat
  spec : SpokeSpec
  status : SvartSkjaifStatus
  deriving DecidableEq, Repr

/-- Modelled from the spec: `toHub` (the v1alpha1 `ConvertTo`, not among the
sources) flattens the three container fields onto the Hub spec field-for-field
and copies identity, generation and status verbatim. -/
def toHub (s : SpokeObject) : SvartSkjaif :=
  { identity := s.identity, generation := s.generation,
    spec := { Kaffe := s.spec.container.kaffe, Kopp := s.spec.container.kopp,
              Vann := s.spec.container.vann },
    status := s.status }

/-- Modelled from the spec: `toSpoke` (the v1alpha1 `ConvertFrom`, not among
the sources) nests the three Hub spec fields back into the container
field-for-field and copies identity, generation and status verbatim. -/
def toSpoke (h : SvartSkjaif) : SpokeObject :=
  { identity := h.identity, generation := h.generation,
    spec := { container := { kaffe := h.spec.Kaffe, kopp := h.spec.Kopp,
                             vann := h.spec.Vann } },
    status := h.status }

/-- Modelled from the spec: a payload in one of the two schema shapes. -/
inductive Payload where
  | spoke (s : SpokeObject)
  | hub (h : SvartSkjaif)
  deriving DecidableEq, Repr

/-- Modelled from the spec: a source object of a conversion request, tagged
with its own revision marker. -/
structure TaggedObject where
  revisionMarker : String
  payload : Payload
  deriving DecidableEq, Repr

/-- The Spoke revision marker (the v1alpha1 apiVersion). -/
def spokeMarker : String := "skjaif.skjaiferator.no/v1alpha1"

/-- The Hub revision marker (the v1beta1 apiVersion, the storage version). -/
def hubMarker : String := "skjaif.skjaiferator.no/v1beta1"

/-- Modelled from the spec: the structured failure a conversion request
returns, with an error kind and the index of the offending object. -/
structure ConversionError where
  kind : String
  objectIndex : Nat
  deriving DecidableEq, Repr

/-- Modelled from the spec: convert one tagged source object to the target
revision (the conversion gateway's per-object step; the gateway is not among
the sources).  Hub to Hub is a no-op identity copy; Spoke to Hub applies
`toHub`; Hub to Spoke applies `toSpoke`; any other marker combination fails
with `UnsupportedConversion`; a payload not matching its declared marker is a
`ShapeMismatch`. -/
def convertOne (target : String) (obj : TaggedObject) : Except String Payload :=
  if obj.revisionMarker = hubMarker ∧ target = hubMarker then
    match obj.payload with
    | .hub h => .ok (.hub h)
    | .spoke _ => .error "ShapeMismatch"
  else if obj.revisionMarker = spokeMarker ∧ target = hubMarker then
    match obj.payload with
    | .spoke s => .ok (.hub (toHub s))
    | .hub _ => .error "ShapeMismatch"
  else if obj.revisionMarker = hubMarker ∧ target = spokeMarker then
    match obj.payload with
    | .hub h => .ok (.spoke (toSpoke h))
    | .spoke _ => .error "ShapeMismatch"
  else .error "UnsupportedConversion"

/-- Modelled from the spec: convert the tail of a batch, `i` being the index
of its head within the whole request; the first failing item aborts the whole
request with its index. -/
def convertBatchAux (target : String) (i : Nat) :
    List TaggedObject → Except ConversionError (List Payload)
  | [] => .ok []
  | o :: rest =>
    match convertOne target o with
    | .error k => .error { kind := k, objectIndex := i }
    | .ok p =>
      match convertBatchAux target (i + 1) rest with
      | .error e => .error e
      | .ok ps => .ok (p :: ps)

/-- Modelled from the spec: the conversion gateway applied to a request — an
ordered batch of tagged source objects and a target revision marker.  The
response is either every object converted, in order, or a single aggregate
failure naming the first offending object; no item is silently skipped. -/
def convertBatch (target : String) (objs : List TaggedObject) :
    Except ConversionError (List Payload) :=
  convertBatchAux target 0 objs

/-- A sample stored object with all three spec fields drifted from their
canonical values (the spec's example scenario). -/
def sampleDrifted : SvartSkjaif :=
  { identity := { ns := "default", name := "eksempel" }, generation := 1,
    spec := { Kaffe := "melk", Kopp := "krus", Vann := "kaldt" },
    status := {} }

/-- A sample stored object already in the canonical state. -/
def sampleCanonical : SvartSkjaif :=
  { identity := { ns := "default", name := "eksempel" }, generation := 2,
    spec := { Kaffe := "svart", Kopp := "mummi", Vann := "varmt" },
    status := {} }

/-- A sample conversion source object carrying a revision marker that is
neither the Spoke nor the Hub marker. -/
def sampleUnknownMarker : TaggedObject :=
  { revisionMarker := "skjaif.skjaiferator.no/v1gamma1",
    payload := .hub sampleCanonical }

/-- Helper: on a successful fetch the in-memory object at return has the three
canonical spec values and untouched identity, generation and status. -/
lemma reconcile_ok_finalObj (obj : SvartSkjaif) :
    (Reconcile (.ok obj)).finalObj =
      some { identity := obj.identity, generation := obj.generation,
             spec := { Kaffe := "svart", Kopp := "mummi", Vann := "varmt" },
             status := obj.status } := by
  obtain ⟨id, gen, ⟨a, b, c⟩, st⟩ := obj
  simp only [Reconcile]
  split_ifs <;> simp_all

/-- Helper: which fields get assigned is decided field by field against the
canonical values of the fetched spec. -/
lemma reconcile_ok_assigned (obj : SvartSkjaif) :
    (Reconcile (.ok obj)).assigned =
      (if obj.spec.Kaffe = "svart" then [] else [FieldId.kaffe]) ++
      (if obj.spec.Kopp = "mummi" then [] else [FieldId.kopp]) ++
      (if obj.spec.Vann = "varmt" then [] else [FieldId.vann]) := by
  obtain ⟨id, gen, ⟨a, b, c⟩, st⟩ := obj
  simp only [Reconcile]
  split_ifs <;> simp_all

/-- Helper: no invocation issues a write; the source has no `Update` or
`Patch` call. -/
lemma reconcile_writes_nil (fetched : GetResult) :
    (Reconcile fetched).writes = [] := by
  cases fetched <;> rfl

/-- Helper: a source object whose marker is neither the Spoke nor the Hub
marker fails its per-object step with `UnsupportedConversion`, whatever the
target. -/
lemma convertOne_unrecognized (target : String) (obj : TaggedObject)
    (hs : obj.revisionMarker ≠ spokeMarker) (hh : obj.revisionMarker ≠ hubMarker) :
    convertOne target obj = .error "UnsupportedConversion" := by
  simp [convertOne, hs, hh]

/-- Helper: if every object strictly before index `k` converts and the object
at `k` fails its per-object step with kind `e`, the batch tail starting at
request index `i` fails with kind `e` at request index `i + k`. -/
lemma convertBatchAux_error_at (target : String) (e : String) :
    ∀ (l : List TaggedObject) (i k : Nat) (hk : k < l.length),
      (∀ o ∈ l.take k, ∃ p, convertOne target o = .ok p) →
      convertOne target (l.get ⟨k, hk⟩) = .error e →
      convertBatchAux target i l = .error { kind := e, objectIndex := i + k }
  | [], _, k, hk, _, _ => absurd hk (by simp)
  | o :: rest, i, 0, _, _, hbad => by
    simp only [List.get] at hbad
    simp [convertBatchAux, hbad]
  | o :: rest, i, k + 1, hk, hok, hbad => by
    obtain ⟨p, hp⟩ := hok o (by simp)
    have ih := convertBatchAux_error_at target e rest (i + 1) k
      (by simpa using Nat.lt_of_succ_lt_succ hk)
      (fun o2 ho2 => hok o2 (by simp [List.take_succ_cons]; right; exact ho2))
      (by simpa using hbad)
    simp only [convertBatchAux, hp, ih]
    simp [Nat.add_assoc, Nat.add_comm 1 k]

/-- C1: evaluated at a fetched object whose three spec fields are all
non-canonical, `Reconcile` corrects the in-memory copy yet issues zero writes
and leaves the stored object unchanged — the source contains no `Update` or
`Patch` call, so the single reconciliation write the claim describes never
happens and the store never reaches the canonical values. -/
theorem c1_drifted_object_reconciled_with_zero_writes :
    sampleDrifted.spec = { Kaffe := "melk", Kopp := "krus", Vann := "kaldt" } ∧
    (Reconcile (.ok sampleDrifted)).writes = [] ∧
    (Reconcile (.ok sampleDrifted)).finalObj.map (fun o => o.spec) =
      some { Kaffe := "svart", Kopp := "mummi", Vann := "varmt" } ∧
    reconcileStore sampleDrifted = (sampleDrifted, 0) := by
  refine ⟨rfl, rfl, ?_, rfl⟩
  simp [reconcile_ok_finalObj]

/-- C2: round-trip fidelity of the schema conversion — Spoke to Hub to Spoke
and Hub to Spoke to Hub are both the identity, on the three string fields and
on all metadata. -/
theorem c2_roundtrip_identity (s : SpokeObject) (y : SvartSkjaif) :
    toSpoke (toHub s) = s ∧ toHub (toSpoke y) = y :=
  ⟨rfl, rfl⟩

/-- C3: after a successful invocation on any fetched object, the invocation
reports success and the in-memory spec is exactly the canonical triple
("svart", "mummi", "varmt"); a field already equal to its canonical value
keeps its current value. -/
theorem c3_spec_fields_normalized (obj : SvartSkjaif) :
    (Reconcile (.ok obj)).error = none ∧
    (Reconcile (.ok obj)).finalObj.map (fun o => o.spec) =
      some { Kaffe := "svart", Kopp := "mummi", Vann := "varmt" } ∧
    (obj.spec.Kaffe = "svart" →
      (Reconcile (.ok obj)).finalObj.map (fun o => o.spec.Kaffe) =
        some obj.spec.Kaffe) ∧
    (obj.spec.Kopp = "mummi" →
      (Reconcile (.ok obj)).finalObj.map (fun o => o.spec.Kopp) =
        some obj.spec.Kopp) ∧
    (obj.spec.Vann = "varmt" →
      (Reconcile (.ok obj)).finalObj.map (fun o => o.spec.Vann) =
        some obj.spec.Vann) := by
  refine ⟨rfl, ?_, ?_, ?_, ?_⟩ <;> simp [reconcile_ok_finalObj]
  all_goals intro h; simp [h]

/-- Witness for C3 at a concrete canonical object. -/
theorem c3_spec_fields_normalized_witness :
    (Reconcile (.ok sampleCanonical)).error = none ∧
    (Reconcile (.ok sampleCanonical)).finalObj.map (fun o => o.spec) =
      some { Kaffe := "svart", Kopp := "mummi", Vann := "varmt" } ∧
    (Reconcile (.ok sampleCanonical)).finalObj.map (fun o => o.spec.Kaffe) =
      some sampleCanonical.spec.Kaffe :=
  have t := c3_spec_fields_normalized sampleCanonical
  ⟨t.1, t.2.1, t.2.2.1 rfl⟩

/-- C4: an invocation whose fetch reports NotFound terminates successfully:
empty result, no error returned, no write issued, nothing assigned. -/
theorem c4_notfound_is_success :
    Reconcile GetResult.notFound =
      { result := emptyResult, error := none, writes := [], assigned := [],
        finalObj := none } :=
  rfl

/-- C5: idempotence — on a stored object whose three fields are already
canonical the invocation returns success with zero writes and no requeue, and
(for the reconciliation step on the store) running it twice gives the same
stored state as running it once, the second run performing zero writes. -/
theorem c5_reconcile_idempotent (obj : SvartSkjaif)
    (h1 : obj.spec.Kaffe = "svart") (h2 : obj.spec.Kopp = "mummi")
    (h3 : obj.spec.Vann = "varmt") :
    (Reconcile (.ok obj)).error = none ∧
    (Reconcile (.ok obj)).writes = [] ∧
    (Reconcile (.ok obj)).result = emptyResult ∧
    (reconcileStore (reconcileStore obj).1).1 = (reconcileStore obj).1 ∧
    (reconcileStore (reconcileStore obj).1).2 = 0 :=
  ⟨rfl, rfl, rfl, rfl, rfl⟩

/-- Witness for C5 at a concrete canonical object. -/
theorem c5_reconcile_idempotent_witness :
    (Reconcile (.ok sampleCanonical)).error = none ∧
    (Reconcile (.ok sampleCanonical)).writes = [] ∧
    (Reconcile (.ok sampleCanonical)).result = emptyResult ∧
    (reconcileStore (reconcileStore sampleCanonical).1).1 =
      (reconcileStore sampleCanonical).1 ∧
    (reconcileStore (reconcileStore sampleCanonical).1).2 = 0 :=
  c5_reconcile_idempotent sampleCanonical rfl rfl rfl

/-- C7: a conversion request containing a source object whose revision marker
is neither the Spoke nor the Hub marker — every object before it converting
cleanly — fails as a whole with `UnsupportedConversion` at exactly that
object's index, and returns no converted batch at all. -/
theorem c7_gateway_rejects_unknown_marker (target : String)
    (objs : List TaggedObject) (i : Nat) (hi : i < objs.length)
    (hs : (objs.get ⟨i, hi⟩).revisionMarker ≠ spokeMarker)
    (hh : (objs.get ⟨i, hi⟩).revisionMarker ≠ hubMarker)
    (hpre : ∀ o ∈ objs.take i, ∃ p, convertOne target o = Except.ok p) :
    convertBatch target objs =
      Except.error { kind := "UnsupportedConversion", objectIndex := i } ∧
    ∀ ps, convertBatch target objs ≠ Except.ok ps := by
  have hbad := convertOne_unrecognized target (objs.get ⟨i, hi⟩) hs hh
  have hmain := convertBatchAux_error_at target "UnsupportedConversion"
    objs 0 i hi hpre hbad
  rw [Nat.zero_add] at hmain
  refine ⟨hmain, ?_⟩
  intro ps hps
  rw [convertBatch] at hps
  rw [hmain] at hps
  cases hps

/-- Witness for C7 at a concrete single-object batch with an unrecognized
marker. -/
theorem c7_gateway_rejects_unknown_marker_witness :
    sampleUnknownMarker.revisionMarker ≠ spokeMarker ∧
    sampleUnknownMarker.revisionMarker ≠ hubMarker ∧
    convertBatch hubMarker [sampleUnknownMarker] =
      Except.error { kind := "UnsupportedConversion", objectIndex := 0 } :=
  ⟨by decide, by decide,
    (c7_gateway_rejects_unknown_marker hubMarker [sampleUnknownMarker] 0
      (by simp) (by decide) (by decide) (by simp)).1⟩

/-- C8: conversion in either direction copies identity, generation and status
verbatim. -/
theorem c8_conversion_preserves_metadata (s : SpokeObject) (y : SvartSkjaif) :
    (toHub s).identity = s.identity ∧ (toHub s).generation = s.generation ∧
    (toHub s).status = s.status ∧
    (toSpoke y).identity = y.identity ∧ (toSpoke y).generation = y.generation ∧
    (toSpoke y).status = y.status :=
  ⟨rfl, rfl, rfl, rfl, rfl, rfl⟩

/-- C9: every invocation returns the empty result (no requeue, no delayed
requeue); the returned error is exactly the fetch error, unchanged, when the
fetch fails with a non-NotFound error, and nil in every other case. -/
theorem c9_empty_result_and_exact_error (g : GetResult) :
    (Reconcile g).result.requeue = false ∧
    (Reconcile g).result.requeueAfter = 0 ∧
    (Reconcile g).error = (match g with
      | .otherError m => some m
      | _ => none) := by
  cases g <;> exact ⟨rfl, rfl, rfl⟩

/-- C10: frame property of an invocation on a fetched object — identity,
generation and status are returned unmodified, and a spec field already equal
to its canonical value is not assigned. -/
theorem c10_reconcile_frame (obj : SvartSkjaif) :
    (Reconcile (.ok obj)).finalObj.map SvartSkjaif.identity =
      some obj.identity ∧
    (Reconcile (.ok obj)).finalObj.map SvartSkjaif.generation =
      some obj.generation ∧
    (Reconcile (.ok obj)).finalObj.map SvartSkjaif.status = some obj.status ∧
    (obj.spec.Kaffe = "svart" →
      FieldId.kaffe ∉ (Reconcile (.ok obj)).assigned) ∧
    (obj.spec.Kopp = "mummi" →
      FieldId.kopp ∉ (Reconcile (.ok obj)).assigned) ∧
    (obj.spec.Vann = "varmt" →
      FieldId.vann ∉ (Reconcile (.ok obj)).assigned) := by
  refine ⟨?_, ?_, ?_, ?_, ?_, ?_⟩
  · simp [reconcile_ok_finalObj]
  · simp [reconcile_ok_finalObj]
  · simp [reconcile_ok_finalObj]
  all_goals intro h; rw [reconcile_ok_assigned]; split_ifs <;> simp_all

/-- Witness for C10 at a concrete canonical object. -/
theorem c10_reconcile_frame_witness :
    (Reconcile (.ok sampleCanonical)).finalObj.map SvartSkjaif.identity =
      some sampleCanonical.identity ∧
    FieldId.kaffe ∉ (Reconcile (.ok sampleCanonical)).assigned ∧
    FieldId.kopp ∉ (Reconcile (.ok sampleCanonical)).assigned ∧
    FieldId.vann ∉ (Reconcile (.ok sampleCanonical)).assigned :=
  have t := c10_reconcile_frame sampleCanonical
  ⟨t.1, t.2.2.2.1 rfl, t.2.2.2.2.1 rfl, t.2.2.2.2.2 rfl⟩

end Skjaiferator
